import Mathlib

/-!
Shallow embedding of `src/cloud-deploy/ollama/colab.py`.

The script is straight-line glue code: it configures the ngrok auth token,
builds a copy of the process environment with two overrides, starts
`ollama serve` in a background thread, sleeps 10 seconds, pulls each model
of `MODELS_TO_PULL` in order with `subprocess.run` (ignoring exit codes),
opens an ngrok tunnel on port 11434 inside a `try/except Exception`, and
then idles in a `while True: time.sleep(1)` loop until a
`KeyboardInterrupt`, whose handler calls `ngrok.kill()`.

We embed a run of the script as a finite list of observable events
(`Event`), parameterised by:
  * the configuration (`Config`): the inherited parent environment and the
    model list (the script hard-codes `MODELS_TO_PULL`; the spec speaks of
    an arbitrary configured list);
  * an oracle giving each `ollama pull` subprocess its exit code (the
    script never inspects it);
  * the outcome of `ngrok.connect` (`ConnectResult`): either a public URL
    or a raised `Exception` carrying a message;
  * the point at which the operator interrupt arrives
    (`InterruptPoint`): during the warmup sleep, during the i-th pull, or
    during the k-th iteration of the idle loop.  The idle loop is
    infinite, so every terminating run is indexed by an interrupt point.

The background thread only calls `print` and `subprocess.Popen` and is
joined implicitly by the 10-second sleep; we embed it sequentially at the
point of `thread.start()`.
-/

namespace ColabOllama

/-- A process environment, as an ordered association list of
`NAME=value` pairs (Python `dict` with string keys). -/
abbrev Env := List (String × String)

/-- Dictionary lookup: `env.get(key)`. -/
def envGet : Env → String → Option String
  | [], _ => none
  | (k, v) :: rest, key => if k = key then some v else envGet rest key

/-- Dictionary assignment `env[key] = value`: replaces the value of an
existing key in place, otherwise appends a new entry. -/
def envSet : Env → String → String → Env
  | [], key, val => [(key, val)]
  | (k, v) :: rest, key, val =>
    if k = key then (key, val) :: rest else (k, v) :: envSet rest key val

/-- The `NGROK_AUTH_TOKEN` literal at the top of the script. -/
def NGROK_AUTH_TOKEN : String := "37kVEwa8EZtr5XhBqWf3FQAnkN2_4WhXosh1h74P7iocrdu8L"

/-- The `MODELS_TO_PULL` literal at the top of the script. -/
def MODELS_TO_PULL : List String := ["gpt-oss:20b", "qwen2.5:14b"]

/-- The assignments `my_env = os.environ.copy(); my_env["OLLAMA_ORIGINS"] = "*";
my_env["OLLAMA_HOST"] = "0.0.0.0"` — the environment handed to every
child process. -/
def mkMyEnv (parent : Env) : Env :=
  envSet (envSet parent "OLLAMA_ORIGINS" "*") "OLLAMA_HOST" "0.0.0.0"

/-- The interpreter state relevant to environment handling: the real
process environment `os.environ` and the script variable `my_env`. -/
structure PyState where
  osEnviron : Env
  myEnv : Env
  deriving DecidableEq

/-- Lines 28-30 of the script as a state transformer: copy `os.environ`
into `my_env`, then write the two overrides into the copy. -/
def setupEnv (s : PyState) : PyState :=
  { s with myEnv := mkMyEnv s.osEnviron }

/-- Result of the `ngrok.connect(11434)` call: either a tunnel object
whose `public_url` is returned, or a raised `Exception` (caught by the
`except Exception as e` clause) carrying `str(e)`. -/
inductive ConnectResult where
  | ok (url : String)
  | err (msg : String)
  deriving DecidableEq

/-- Where the operator `KeyboardInterrupt` arrives.  `duringWarmup`: in
the `time.sleep(10)`; `duringPull i`: while the i-th (0-based) pull
subprocess runs; `duringIdle k`: after `k` completed iterations of the
`while True: time.sleep(1)` loop. -/
inductive InterruptPoint where
  | duringWarmup
  | duringPull (i : Nat)
  | duringIdle (k : Nat)
  deriving DecidableEq

/-- How the interpreter exits: `normalExit` — falls off the end of the
script after the `except KeyboardInterrupt` handler; `uncaughtInterrupt`
— the `KeyboardInterrupt` was raised outside the final `try` block, so no
handler runs and the interpreter unwinds. -/
inductive Outcome where
  | normalExit
  | uncaughtInterrupt
  deriving DecidableEq

/-- Observable events of a run. -/
inductive Event where
  /-- the call `conf.get_default().auth_token = NGROK_AUTH_TOKEN` -/
  | setAuthToken (tok : String)
  /-- a `print(...)` call with the resulting text -/
  | print (s : String)
  /-- the call `subprocess.Popen(["ollama", "serve"], env=...)` -/
  | popenServe (env : Env)
  /-- a completed `time.sleep(secs)` -/
  | sleep (secs : Nat)
  /-- the call `subprocess.run(["ollama", "pull", model], env=...)` returning
  `exitCode` (ignored by the script) -/
  | pullRun (model : String) (env : Env) (exitCode : Int)
  /-- the call `ngrok.connect(port)` is invoked -/
  | ngrokConnect (port : Nat)
  /-- the call `ngrok.kill()` -/
  | ngrokKill
  deriving DecidableEq

/-- The script configuration: the inherited environment and the model
list. -/
structure Config where
  parentEnv : Env
  models : List String

/-- Text of `print(f"⬇️ İndiriliyor: ... ")`. -/
def dlMsg (m : String) : String := "⬇️ İndiriliyor: " ++ m ++ " ..."

/-- Text of `print(f"✅ ... hazır!")`. -/
def readyMsg (m : String) : String := "✅ " ++ m ++ " hazır!"

/-- Text of `print(f"Toplam ... model indirilecek. ...")`. -/
def headerMsg (n : Nat) : String :=
  "Toplam " ++ toString n ++ " model indirilecek. Bu biraz sürebilir..."

/-- The separator `"="*50`. -/
def eqLine : String := String.mk (List.replicate 50 '=')

/-- Text of `print(f"\n👉 ...public_url... 👈\n")`. -/
def urlMsg (url : String) : String := "\n👉 " ++ url ++ " 👈\n"

/-- The download loop (lines 45-48): for each model, print the
downloading line, run `ollama pull`, print the ready line. -/
def pullStage (env : Env) (oracle : String → Int) : List String → List Event
  | [] => []
  | m :: ms =>
    Event.print (dlMsg m) :: Event.pullRun m env (oracle m) ::
      Event.print (readyMsg m) :: pullStage env oracle ms

/-- Lines 25-38: token configuration, then the background thread body
(`print` + `Popen`), embedded at `thread.start()`. -/
def startupTrace (cfg : Config) : List Event :=
  [Event.setAuthToken NGROK_AUTH_TOKEN,
   Event.print "Ollama server başlatılıyor...",
   Event.popenServe (mkMyEnv cfg.parentEnv)]

/-- Lines 51-60: the `try` block around `ngrok.connect(11434)`.  On
success the five prints of the URL banner; on a raised `Exception` the
single `print("Hata:", e)` of the handler. -/
def tunnelStage (models : List String) : ConnectResult → List Event
  | ConnectResult.ok url =>
    [Event.ngrokConnect 11434,
     Event.print ("\n" ++ eqLine),
     Event.print "🔥 TÜM MODELLER HAZIR! API Adresi:",
     Event.print (urlMsg url),
     Event.print ("Kullanılabilir Modeller: " ++ String.intercalate ", " models),
     Event.print eqLine]
  | ConnectResult.err msg =>
    [Event.ngrokConnect 11434, Event.print ("Hata: " ++ msg)]

/-- Everything before the tunnel stage on an uninterrupted prefix:
startup, the completed 10-second warmup sleep, the header print, and the
full download loop. -/
def preTunnel (cfg : Config) (oracle : String → Int) : List Event :=
  startupTrace cfg ++
    Event.sleep 10 :: Event.print (headerMsg cfg.models.length) ::
      pullStage (mkMyEnv cfg.parentEnv) oracle cfg.models

/-- A full run of the script, as the list of events observed before the
interpreter exits, together with how it exits.  An interrupt during the
warmup sleep or during a pull is raised outside any
`except KeyboardInterrupt`, so the run ends there with no cleanup; an
interrupt during the idle loop reaches the handler, which calls
`ngrok.kill()`. -/
def runScript (cfg : Config) (oracle : String → Int) (cr : ConnectResult) :
    InterruptPoint → List Event × Outcome
  | InterruptPoint.duringWarmup =>
    (startupTrace cfg, Outcome.uncaughtInterrupt)
  | InterruptPoint.duringPull i =>
    (startupTrace cfg ++
       Event.sleep 10 :: Event.print (headerMsg cfg.models.length) ::
         (pullStage (mkMyEnv cfg.parentEnv) oracle (cfg.models.take i) ++
           (match cfg.models[i]? with
            | some m => [Event.print (dlMsg m),
                         Event.pullRun m (mkMyEnv cfg.parentEnv) (oracle m)]
            | none => [])),
     Outcome.uncaughtInterrupt)
  | InterruptPoint.duringIdle k =>
    (preTunnel cfg oracle ++ tunnelStage cfg.models cr ++
       List.replicate k (Event.sleep 1) ++ [Event.ngrokKill],
     Outcome.normalExit)

/-- The model name carried by a pull event, if any. -/
def Event.pulledModel : Event → Option String
  | Event.pullRun m _ _ => some m
  | _ => none

/-- Whether an event is a pull invocation. -/
def Event.isPull : Event → Bool
  | Event.pullRun _ _ _ => true
  | _ => false

/-- Forgets the exit code a pull subprocess happened to return, keeping
the invocation itself. -/
def eraseExit : Event → Event
  | Event.pullRun m e _ => Event.pullRun m e 0
  | ev => ev

/-- Whether an event is the `ngrok.kill()` call. -/
def Event.isKill : Event → Bool
  | Event.ngrokKill => true
  | _ => false

/-- Whether an event is an `ngrok.connect` call (on any port). -/
def Event.isConnect : Event → Bool
  | Event.ngrokConnect _ => true
  | _ => false

/-- Whether an event is a completed one-second idle sleep. -/
def Event.isIdleSleep : Event → Bool
  | Event.sleep 1 => true
  | _ => false

/-- Whether an event is the completed ten-second warmup sleep. -/
def Event.isWarmupSleep : Event → Bool
  | Event.sleep 10 => true
  | _ => false

section Lemmas

/-- The download loop pulls exactly the configured models, in order. -/
theorem pullStage_filterMap (env : Env) (oracle : String → Int) (ms : List String) :
    (pullStage env oracle ms).filterMap Event.pulledModel = ms := by
  induction ms with
  | nil => rfl
  | cons m ms ih => simp [pullStage, Event.pulledModel, ih]

/-- The download loop trace does not depend on the exit codes the pull
subprocesses return. -/
theorem pullStage_map_eraseExit (env : Env) (o₁ o₂ : String → Int) (ms : List String) :
    (pullStage env o₁ ms).map eraseExit = (pullStage env o₂ ms).map eraseExit := by
  induction ms with
  | nil => rfl
  | cons m ms ih => simp [pullStage, eraseExit, ih]

/-- Counting through the download loop: a predicate false on all three
event shapes of an iteration counts zero. -/
theorem pullStage_countP_zero (p : Event → Bool) (env : Env) (oracle : String → Int)
    (ms : List String)
    (h1 : ∀ m, p (Event.print (dlMsg m)) = false)
    (h2 : ∀ m c, p (Event.pullRun m env c) = false)
    (h3 : ∀ m, p (Event.print (readyMsg m)) = false) :
    (pullStage env oracle ms).countP p = 0 := by
  induction ms with
  | nil => rfl
  | cons m ms ih => simp [pullStage, List.countP_cons, h1, h2, h3, ih]

/-- A predicate false on `a` counts zero over `List.replicate k a`. -/
theorem countP_replicate_zero (p : Event → Bool) (a : Event) (k : Nat)
    (h : p a = false) : (List.replicate k a).countP p = 0 := by
  simp [List.countP_replicate, h]

/-- A predicate true on `a` counts `k` over `List.replicate k a`. -/
theorem countP_replicate_all (p : Event → Bool) (a : Event) (k : Nat)
    (h : p a = true) : (List.replicate k a).countP p = k := by
  simp [List.countP_replicate, h]

/-- No pull event appears outside the download loop: the tunnel stage has
none. -/
theorem tunnelStage_filterMap (models : List String) (cr : ConnectResult) :
    (tunnelStage models cr).filterMap Event.pulledModel = [] := by
  cases cr <;> rfl

/-- Assigning a key makes it present with the assigned value. -/
theorem envGet_envSet_self (e : Env) (k v : String) :
    envGet (envSet e k v) k = some v := by
  induction e with
  | nil => simp [envSet, envGet]
  | cons kv rest ih =>
    obtain ⟨k1, v1⟩ := kv
    by_cases h : k1 = k <;> simp [envSet, envGet, h, ih]

/-- Assigning one key leaves every other key untouched. -/
theorem envGet_envSet_ne (e : Env) (k v key : String) (h : k ≠ key) :
    envGet (envSet e k v) key = envGet e key := by
  induction e with
  | nil => simp [envSet, envGet, h]
  | cons kv rest ih =>
    obtain ⟨k1, v1⟩ := kv
    by_cases h1 : k1 = k
    · subst h1
      simp [envSet, envGet, h]
    · by_cases h2 : k1 = key <;> simp [envSet, envGet, h1, h2, ih, Ne.symm h]

/-- The child environment maps `OLLAMA_ORIGINS` to the allow-all value. -/
theorem mkMyEnv_origins (p : Env) :
    envGet (mkMyEnv p) "OLLAMA_ORIGINS" = some "*" := by
  rw [mkMyEnv, envGet_envSet_ne _ _ _ _ (by decide), envGet_envSet_self]

/-- The child environment maps `OLLAMA_HOST` to the bind-all value. -/
theorem mkMyEnv_host (p : Env) :
    envGet (mkMyEnv p) "OLLAMA_HOST" = some "0.0.0.0" := by
  rw [mkMyEnv, envGet_envSet_self]

/-- The child environment agrees with the parent on every key other than
the two overridden ones. -/
theorem mkMyEnv_other (p : Env) (key : String) (h1 : key ≠ "OLLAMA_ORIGINS")
    (h2 : key ≠ "OLLAMA_HOST") :
    envGet (mkMyEnv p) key = envGet p key := by
  rw [mkMyEnv, envGet_envSet_ne _ _ _ _ (Ne.symm h2),
    envGet_envSet_ne _ _ _ _ (Ne.symm h1)]

/-- Every pull event of the download loop carries the environment of the loop. -/
theorem pullStage_pullRun_env (env : Env) (o : String → Int) (ms : List String)
    (m : String) (e : Env) (c : Int)
    (hmem : Event.pullRun m e c ∈ pullStage env o ms) : e = env := by
  induction ms with
  | nil => cases hmem
  | cons a ms ih =>
    simp only [pullStage, List.mem_cons] at hmem
    rcases hmem with h | h | h
    · cases h
    · cases h; rfl
    · rcases h with h | h
      · cases h
      · exact ih h

/-- The download loop contains no serve launch. -/
theorem popenServe_not_mem_pullStage (env e : Env) (o : String → Int)
    (ms : List String) (hmem : Event.popenServe e ∈ pullStage env o ms) : False := by
  induction ms with
  | nil => cases hmem
  | cons a ms ih =>
    simp only [pullStage, List.mem_cons] at hmem
    rcases hmem with h | h | h
    · cases h
    · cases h
    · rcases h with h | h
      · cases h
      · exact ih h

/-- If a model `m` is in the list, the download loop contains the pull of
`m` immediately followed by the ready print. -/
theorem pullStage_adjacent (env : Env) (o : String → Int) (ms : List String)
    (m : String) (hm : m ∈ ms) :
    ∃ s t, pullStage env o ms
      = s ++ Event.pullRun m env (o m) :: Event.print (readyMsg m) :: t := by
  induction ms with
  | nil => cases hm
  | cons a ms ih =>
    rcases List.mem_cons.mp hm with h | h
    · subst h
      exact ⟨[Event.print (dlMsg m)], pullStage env o ms, rfl⟩
    · obtain ⟨s, t, hst⟩ := ih h
      exact ⟨Event.print (dlMsg a) :: Event.pullRun a env (o a) ::
        Event.print (readyMsg a) :: s, t, by simp [pullStage, hst]⟩

/-- A `List.replicate` of an idle sleep contributes no pull event. -/
theorem replicate_sleep_filterMap (k : Nat) :
    (List.replicate k (Event.sleep 1)).filterMap Event.pulledModel = [] := by
  simp [List.filterMap_replicate, Event.pulledModel]

/-- The first two characters of a string, used to separate the distinct
print messages of the script from one another. -/
def firstTwo (s : String) : List Char := s.data.take 2

/-- Strings whose first two characters differ are different. -/
theorem ne_of_firstTwo (a b : String) (h : firstTwo a ≠ firstTwo b) : a ≠ b :=
  fun e => h (by rw [e])

/-- Appending to a string of at least two characters keeps its first two
characters. -/
theorem firstTwo_append (a b : String) (h : 2 ≤ a.data.length) :
    firstTwo (a ++ b) = firstTwo a := by
  unfold firstTwo
  rw [String.data_append, List.take_append_of_le_length h]

/-- Two-character lower bound survives a right append. -/
theorem two_le_len_append (a b : String) (h : 2 ≤ a.data.length) :
    2 ≤ (a ++ b).data.length := by
  rw [String.data_append, List.length_append]
  omega

/-- The URL banner line starts with a newline and the pointing emoji. -/
theorem firstTwo_urlMsg (url : String) : firstTwo (urlMsg url) = ['\n', '👉'] := by
  rw [urlMsg, firstTwo_append _ _ (two_le_len_append _ url (by decide)),
    firstTwo_append _ _ (by decide)]
  decide

/-- The server-start print is never the URL banner line. -/
theorem serverStart_ne_urlMsg (url : String) :
    "Ollama server başlatılıyor..." ≠ urlMsg url := by
  apply ne_of_firstTwo
  rw [firstTwo_urlMsg]
  decide

/-- The header print is never the URL banner line. -/
theorem headerMsg_ne_urlMsg (n : Nat) (url : String) : headerMsg n ≠ urlMsg url := by
  apply ne_of_firstTwo
  rw [headerMsg, firstTwo_urlMsg,
    firstTwo_append _ _ (two_le_len_append _ _ (by decide)),
    firstTwo_append _ _ (by decide)]
  decide

/-- A downloading print is never the URL banner line. -/
theorem dlMsg_ne_urlMsg (m url : String) : dlMsg m ≠ urlMsg url := by
  apply ne_of_firstTwo
  rw [dlMsg, firstTwo_urlMsg,
    firstTwo_append _ _ (two_le_len_append _ _ (by decide)),
    firstTwo_append _ _ (by decide)]
  decide

/-- A ready print is never the URL banner line. -/
theorem readyMsg_ne_urlMsg (m url : String) : readyMsg m ≠ urlMsg url := by
  apply ne_of_firstTwo
  rw [readyMsg, firstTwo_urlMsg,
    firstTwo_append _ _ (two_le_len_append _ _ (by decide)),
    firstTwo_append _ _ (by decide)]
  decide

/-- The top separator print is never the URL banner line. -/
theorem banner_ne_urlMsg (url : String) : "\n" ++ eqLine ≠ urlMsg url := by
  apply ne_of_firstTwo
  rw [firstTwo_urlMsg]
  decide

/-- The all-ready print is never the URL banner line. -/
theorem fire_ne_urlMsg (url : String) :
    "🔥 TÜM MODELLER HAZIR! API Adresi:" ≠ urlMsg url := by
  apply ne_of_firstTwo
  rw [firstTwo_urlMsg]
  decide

/-- The available-models print is never the URL banner line. -/
theorem kullan_ne_urlMsg (models : List String) (url : String) :
    "Kullanılabilir Modeller: " ++ String.intercalate ", " models ≠ urlMsg url := by
  apply ne_of_firstTwo
  rw [firstTwo_urlMsg, firstTwo_append _ _ (by decide)]
  decide

/-- The bottom separator print is never the URL banner line. -/
theorem eqLine_ne_urlMsg (url : String) : eqLine ≠ urlMsg url := by
  apply ne_of_firstTwo
  rw [firstTwo_urlMsg]
  decide

/-- Whether an event is a `print` of exactly the string `s`. -/
def Event.isPrintOf (s : String) : Event → Bool
  | Event.print t => t == s
  | _ => false

/-- The test `isPrintOf` holds on the print of the string itself. -/
theorem isPrintOf_print_self (s : String) :
    Event.isPrintOf s (Event.print s) = true := by
  simp [Event.isPrintOf]

/-- The test `isPrintOf` fails on prints of a different string. -/
theorem isPrintOf_print_ne (s t : String) (h : t ≠ s) :
    Event.isPrintOf s (Event.print t) = false := by
  simp [Event.isPrintOf]
  exact h

/-- The test `isPrintOf` fails on every non-print event. -/
theorem isPrintOf_setAuthToken (s t : String) :
    Event.isPrintOf s (Event.setAuthToken t) = false := rfl

/-- The test `isPrintOf` fails on the serve launch. -/
theorem isPrintOf_popenServe (s : String) (e : Env) :
    Event.isPrintOf s (Event.popenServe e) = false := rfl

/-- The test `isPrintOf` fails on sleeps. -/
theorem isPrintOf_sleep (s : String) (n : Nat) :
    Event.isPrintOf s (Event.sleep n) = false := rfl

/-- The test `isPrintOf` fails on the connect call. -/
theorem isPrintOf_connect (s : String) (p : Nat) :
    Event.isPrintOf s (Event.ngrokConnect p) = false := rfl

/-- The test `isPrintOf` fails on the kill call. -/
theorem isPrintOf_kill (s : String) :
    Event.isPrintOf s Event.ngrokKill = false := rfl

end Lemmas

section Claims

/-- C1: for a configured list of N model identifiers, the fetch stage
invokes `ollama pull` exactly N times, once per identifier in the
configured list order (the pull events of the run trace, projected to
their model names, are exactly `cfg.models`), and the run trace — pull
exit codes aside — is the same whatever exit status each invocation
returns (no retry, no halt on failure). -/
theorem c1_fetch_invokes_each_model_once (cfg : Config) (o₁ o₂ : String → Int)
    (cr : ConnectResult) (k : Nat) :
    ((runScript cfg o₁ cr (InterruptPoint.duringIdle k)).1.filterMap Event.pulledModel
        = cfg.models)
    ∧ ((runScript cfg o₁ cr (InterruptPoint.duringIdle k)).1.map eraseExit
        = (runScript cfg o₂ cr (InterruptPoint.duringIdle k)).1.map eraseExit) := by
  constructor
  · simp [runScript, preTunnel, startupTrace, List.filterMap_append,
      pullStage_filterMap, tunnelStage_filterMap, replicate_sleep_filterMap,
      Event.pulledModel]
  · simp only [runScript, preTunnel, List.map_append, List.map_cons]
    rw [pullStage_map_eraseExit (mkMyEnv cfg.parentEnv) o₁ o₂ cfg.models]

/-- C2: if `ngrok.connect` raises an exception with message `msg`, the
script catches it, prints a diagnostic containing the message, does not
re-raise (the run still terminates via the normal interrupt path), and
proceeds into the idle wait loop (all `k` idle-loop sleeps of the run
still happen). -/
theorem c2_connect_failure_contained (cfg : Config) (o : String → Int)
    (msg : String) (k : Nat) :
    (Event.print ("Hata: " ++ msg)
        ∈ (runScript cfg o (ConnectResult.err msg) (InterruptPoint.duringIdle k)).1)
    ∧ ((runScript cfg o (ConnectResult.err msg) (InterruptPoint.duringIdle k)).2
        = Outcome.normalExit)
    ∧ ((runScript cfg o (ConnectResult.err msg) (InterruptPoint.duringIdle k)).1.countP
          Event.isIdleSleep = k) := by
  refine ⟨?_, rfl, ?_⟩
  · simp [runScript, tunnelStage, List.mem_append]
  · simp [runScript, preTunnel, startupTrace, tunnelStage, List.countP_append,
      List.countP_cons, Event.isIdleSleep,
      pullStage_countP_zero Event.isIdleSleep _ o _ (fun _ => rfl) (fun _ _ => rfl)
        (fun _ => rfl),
      countP_replicate_all Event.isIdleSleep (Event.sleep 1) k rfl]

/-- C3: on an interrupt during the idle wait loop, `ngrok.kill()` is
invoked exactly once, it is the last event of the run, and the script
then exits normally. -/
theorem c3_interrupt_in_idle_kills_once (cfg : Config) (o : String → Int)
    (cr : ConnectResult) (k : Nat) :
    ((runScript cfg o cr (InterruptPoint.duringIdle k)).1.countP Event.isKill = 1)
    ∧ ((runScript cfg o cr (InterruptPoint.duringIdle k)).1.getLast?
        = some Event.ngrokKill)
    ∧ ((runScript cfg o cr (InterruptPoint.duringIdle k)).2 = Outcome.normalExit) := by
  refine ⟨?_, ?_, rfl⟩
  · cases cr <;>
      simp [runScript, preTunnel, startupTrace, tunnelStage, List.countP_append,
        List.countP_cons, Event.isKill,
        pullStage_countP_zero Event.isKill _ o _ (fun _ => rfl) (fun _ _ => rfl)
          (fun _ => rfl),
        countP_replicate_zero Event.isKill (Event.sleep 1) k]
  · simp [runScript]

/-- C8: `ngrok.kill()` is never invoked from any point other than an
interrupt during the idle wait: a run interrupted during the warmup sleep
or during any download contains no tunnel-teardown event, and in both
cases the `KeyboardInterrupt` escapes uncaught (no cleanup handler runs,
no cancellation support mid-download). -/
theorem c8_no_teardown_outside_idle (cfg : Config) (o : String → Int)
    (cr : ConnectResult) (i : Nat) :
    ((runScript cfg o cr InterruptPoint.duringWarmup).1.countP Event.isKill = 0)
    ∧ ((runScript cfg o cr (InterruptPoint.duringPull i)).1.countP Event.isKill = 0)
    ∧ ((runScript cfg o cr InterruptPoint.duringWarmup).2 = Outcome.uncaughtInterrupt)
    ∧ ((runScript cfg o cr (InterruptPoint.duringPull i)).2
        = Outcome.uncaughtInterrupt) := by
  refine ⟨rfl, ?_, rfl, rfl⟩
  cases h : cfg.models[i]? <;>
    simp [runScript, startupTrace, h, List.countP_append, List.countP_cons,
      Event.isKill,
      pullStage_countP_zero Event.isKill _ o _ (fun _ => rfl) (fun _ _ => rfl)
        (fun _ => rfl)]

/-- C10: on an interrupt during the idle wait, `ngrok.kill()` is invoked
even in a run where `ngrok.connect` raised and no tunnel was ever
established — teardown is not guarded on tunnel setup having succeeded.
The same run demonstrably contains the connect-failure diagnostic. -/
theorem c10_kill_unconditional_after_failed_connect (cfg : Config)
    (o : String → Int) (msg : String) (k : Nat) :
    ((runScript cfg o (ConnectResult.err msg) (InterruptPoint.duringIdle k)).1.countP
        Event.isKill = 1)
    ∧ (Event.print ("Hata: " ++ msg)
        ∈ (runScript cfg o (ConnectResult.err msg) (InterruptPoint.duringIdle k)).1)
    ∧ (Event.ngrokKill
        ∈ (runScript cfg o (ConnectResult.err msg) (InterruptPoint.duringIdle k)).1) := by
  refine ⟨?_, ?_, ?_⟩
  · simp [runScript, preTunnel, startupTrace, tunnelStage, List.countP_append,
      List.countP_cons, Event.isKill,
      pullStage_countP_zero Event.isKill _ o _ (fun _ => rfl) (fun _ _ => rfl)
        (fun _ => rfl),
      countP_replicate_zero Event.isKill (Event.sleep 1) k]
  · simp [runScript, tunnelStage, List.mem_append]
  · simp [runScript, List.mem_append]

/-- C6: the 10-second warmup sleep completes after the serve start
command is issued and before any download: the run trace splits around
the completed warmup sleep, with the serve launch on its left, no pull on
its left, all configured pulls on its right, and that warmup sleep is the
only one in the run. -/
theorem c6_warmup_elapses_before_pulls (cfg : Config) (o : String → Int)
    (cr : ConnectResult) (k : Nat) :
    ∃ A B, ((runScript cfg o cr (InterruptPoint.duringIdle k)).1
        = A ++ Event.sleep 10 :: B)
      ∧ Event.popenServe (mkMyEnv cfg.parentEnv) ∈ A
      ∧ A.countP Event.isPull = 0
      ∧ B.filterMap Event.pulledModel = cfg.models
      ∧ (runScript cfg o cr (InterruptPoint.duringIdle k)).1.countP
          Event.isWarmupSleep = 1 := by
  refine ⟨startupTrace cfg,
    Event.print (headerMsg cfg.models.length) ::
      (pullStage (mkMyEnv cfg.parentEnv) o cfg.models ++
        (tunnelStage cfg.models cr ++
          (List.replicate k (Event.sleep 1) ++ [Event.ngrokKill]))),
    ?_, ?_, rfl, ?_, ?_⟩
  · simp [runScript, preTunnel, List.append_assoc]
  · simp [startupTrace]
  · simp [List.filterMap_append, pullStage_filterMap, tunnelStage_filterMap,
      replicate_sleep_filterMap, Event.pulledModel]
  · cases cr <;>
      simp [runScript, preTunnel, startupTrace, tunnelStage, List.countP_append,
        List.countP_cons, Event.isWarmupSleep,
        pullStage_countP_zero Event.isWarmupSleep _ o _ (fun _ => rfl)
          (fun _ _ => rfl) (fun _ => rfl),
        countP_replicate_zero Event.isWarmupSleep (Event.sleep 1) k rfl]

/-- C7: for every model of the configured list, and whatever exit code
the pull subprocess returns, the per-model ready message is printed
immediately after the pull invocation — success is never verified before
printing. -/
theorem c7_ready_printed_unconditionally (cfg : Config) (o : String → Int)
    (cr : ConnectResult) (k : Nat) (m : String) (hm : m ∈ cfg.models) :
    ∃ s t, (runScript cfg o cr (InterruptPoint.duringIdle k)).1
      = s ++ Event.pullRun m (mkMyEnv cfg.parentEnv) (o m) ::
          Event.print (readyMsg m) :: t := by
  obtain ⟨s, t, hst⟩ := pullStage_adjacent (mkMyEnv cfg.parentEnv) o cfg.models m hm
  refine ⟨startupTrace cfg ++ Event.sleep 10 ::
      Event.print (headerMsg cfg.models.length) :: s,
    t ++ (tunnelStage cfg.models cr ++
      (List.replicate k (Event.sleep 1) ++ [Event.ngrokKill])), ?_⟩
  simp [runScript, preTunnel, hst, List.append_assoc]

/-- Witness for C7 at a concrete configuration: one model "m" whose pull
exits 0. -/
theorem c7_ready_printed_unconditionally_witness :
    ∃ s t, (runScript ⟨[], ["m"]⟩ (fun _ => 0) (ConnectResult.ok "u")
        (InterruptPoint.duringIdle 0)).1
      = s ++ Event.pullRun "m" (mkMyEnv []) 0 :: Event.print (readyMsg "m") :: t :=
  c7_ready_printed_unconditionally ⟨[], ["m"]⟩ (fun _ => 0) (ConnectResult.ok "u") 0
    "m" (by decide)

/-- C9: building the child environment copies `os.environ` and writes the
overrides only into the copy: the parent environment is unchanged by the
setup step; in particular if it lacked the cross-origin or bind-address
keys before, it still lacks them after, while the copied mapping carries
both overrides. -/
theorem c9_parent_env_unchanged (s : PyState) :
    ((setupEnv s).osEnviron = s.osEnviron)
    ∧ (envGet s.osEnviron "OLLAMA_ORIGINS" = none →
        envGet (setupEnv s).osEnviron "OLLAMA_ORIGINS" = none)
    ∧ (envGet s.osEnviron "OLLAMA_HOST" = none →
        envGet (setupEnv s).osEnviron "OLLAMA_HOST" = none)
    ∧ (envGet (setupEnv s).myEnv "OLLAMA_ORIGINS" = some "*")
    ∧ (envGet (setupEnv s).myEnv "OLLAMA_HOST" = some "0.0.0.0") :=
  ⟨rfl, fun h => h, fun h => h, mkMyEnv_origins s.osEnviron, mkMyEnv_host s.osEnviron⟩

/-- Witness for C9 at a concrete state whose parent environment has
neither override key. -/
theorem c9_parent_env_unchanged_witness :
    envGet (setupEnv (PyState.mk [("PATH", "/bin")] [])).osEnviron
        "OLLAMA_ORIGINS" = none
    ∧ envGet (setupEnv (PyState.mk [("PATH", "/bin")] [])).osEnviron
        "OLLAMA_HOST" = none :=
  ⟨(c9_parent_env_unchanged ⟨[("PATH", "/bin")], []⟩).2.1 (by decide),
   (c9_parent_env_unchanged ⟨[("PATH", "/bin")], []⟩).2.2.1 (by decide)⟩

/-- C4 as stated is false: if the parent environment already binds
`OLLAMA_ORIGINS` (here to "http://localhost"), the environment received
by the (unique) pull invocation does not contain that parent entry — the
override replaced it. -/
theorem c4_counterexample :
    (Event.pullRun "m" [("OLLAMA_ORIGINS", "*"), ("OLLAMA_HOST", "0.0.0.0")] 0
        ∈ (runScript ⟨[("OLLAMA_ORIGINS", "http://localhost")], ["m"]⟩ (fun _ => 0)
            (ConnectResult.ok "u") (InterruptPoint.duringIdle 0)).1)
    ∧ ((runScript ⟨[("OLLAMA_ORIGINS", "http://localhost")], ["m"]⟩ (fun _ => 0)
          (ConnectResult.ok "u") (InterruptPoint.duringIdle 0)).1.countP
            Event.isPull = 1)
    ∧ (envGet [("OLLAMA_ORIGINS", "*"), ("OLLAMA_HOST", "0.0.0.0")]
          "OLLAMA_ORIGINS" ≠ some "http://localhost") := by
  refine ⟨?_, ?_, by decide⟩
  · simp [runScript, preTunnel, startupTrace, tunnelStage, pullStage, mkMyEnv,
      envSet, List.mem_append]
  · simp [runScript, preTunnel, startupTrace, tunnelStage, pullStage,
      List.countP_append, List.countP_cons, Event.isPull]

/-- C4 (amended): every child invocation — the serve launch and each pull
— receives exactly the copied-and-overridden environment, which maps
`OLLAMA_ORIGINS` to "*" and `OLLAMA_HOST` to "0.0.0.0" and preserves
every parent entry whose key is neither of those two; parent entries
under the two override keys are replaced rather than preserved. -/
theorem c4_child_env_amended (cfg : Config) (o : String → Int)
    (cr : ConnectResult) (ip : InterruptPoint) :
    (∀ env, Event.popenServe env ∈ (runScript cfg o cr ip).1 →
        env = mkMyEnv cfg.parentEnv)
    ∧ (∀ m env c, Event.pullRun m env c ∈ (runScript cfg o cr ip).1 →
        env = mkMyEnv cfg.parentEnv)
    ∧ (envGet (mkMyEnv cfg.parentEnv) "OLLAMA_ORIGINS" = some "*")
    ∧ (envGet (mkMyEnv cfg.parentEnv) "OLLAMA_HOST" = some "0.0.0.0")
    ∧ (∀ key v, key ≠ "OLLAMA_ORIGINS" → key ≠ "OLLAMA_HOST" →
        envGet cfg.parentEnv key = some v →
          envGet (mkMyEnv cfg.parentEnv) key = some v) := by
  refine ⟨?_, ?_, mkMyEnv_origins _, mkMyEnv_host _, ?_⟩
  · intro env hmem
    cases ip with
    | duringWarmup =>
      simp [runScript, startupTrace] at hmem
      exact hmem
    | duringPull i =>
      cases h : cfg.models[i]? <;>
        · simp [runScript, startupTrace, h, List.mem_append] at hmem
          rcases hmem with hmem | hmem
          · exact hmem
          · exact absurd hmem (popenServe_not_mem_pullStage _ _ _ _)
    | duringIdle k =>
      simp [runScript, preTunnel, startupTrace, List.mem_append] at hmem
      rcases hmem with hmem | hmem | hmem
      · exact hmem
      · exact absurd hmem (popenServe_not_mem_pullStage _ _ _ _)
      · cases cr <;> simp [tunnelStage] at hmem
  · intro m env c hmem
    cases ip with
    | duringWarmup => simp [runScript, startupTrace] at hmem
    | duringPull i =>
      cases h : cfg.models[i]? with
      | none =>
        simp [runScript, startupTrace, h, List.mem_append] at hmem
        exact pullStage_pullRun_env _ o _ _ _ _ hmem
      | some a =>
        simp [runScript, startupTrace, h, List.mem_append] at hmem
        rcases hmem with hmem | hmem
        · exact pullStage_pullRun_env _ o _ _ _ _ hmem
        · exact hmem.2.1
    | duringIdle k =>
      simp [runScript, preTunnel, startupTrace, List.mem_append] at hmem
      rcases hmem with hmem | hmem
      · exact pullStage_pullRun_env _ o _ _ _ _ hmem
      · cases cr <;> simp [tunnelStage] at hmem
  · intro key v h1 h2 hget
    rw [mkMyEnv_other cfg.parentEnv key h1 h2]
    exact hget

/-- Witness for C4 (amended) at a concrete configuration with one
non-override parent entry. -/
theorem c4_child_env_amended_witness :
    envGet (mkMyEnv [("PATH", "/bin")]) "PATH" = some "/bin" :=
  (c4_child_env_amended ⟨[("PATH", "/bin")], []⟩ (fun _ => 0) (ConnectResult.ok "u")
    (InterruptPoint.duringIdle 0)).2.2.2.2 "PATH" "/bin" (by decide) (by decide)
    (by decide)

/-- C5: the tunnel-open call happens only after all downloads have been
attempted and always on the fixed local port 11434: the run trace splits
around `ngrok.connect 11434`, with all configured pulls (in order) before
it and no connect event anywhere else; and on success the returned public
URL banner is printed exactly once in the whole run. -/
theorem c5_tunnel_after_downloads (cfg : Config) (o : String → Int)
    (cr : ConnectResult) (url : String) (k : Nat) :
    (∃ A B, ((runScript cfg o cr (InterruptPoint.duringIdle k)).1
        = A ++ Event.ngrokConnect 11434 :: B)
      ∧ A.filterMap Event.pulledModel = cfg.models
      ∧ A.countP Event.isConnect = 0
      ∧ B.countP Event.isPull = 0
      ∧ B.countP Event.isConnect = 0)
    ∧ ((runScript cfg o (ConnectResult.ok url) (InterruptPoint.duringIdle k)).1.countP
        (Event.isPrintOf (urlMsg url)) = 1) := by
  constructor
  · cases cr with
    | ok u =>
      refine ⟨preTunnel cfg o,
        [Event.print ("\n" ++ eqLine),
         Event.print "🔥 TÜM MODELLER HAZIR! API Adresi:",
         Event.print (urlMsg u),
         Event.print ("Kullanılabilir Modeller: " ++
           String.intercalate ", " cfg.models),
         Event.print eqLine] ++
          (List.replicate k (Event.sleep 1) ++ [Event.ngrokKill]),
        ?_, ?_, ?_, ?_, ?_⟩
      · simp [runScript, tunnelStage, urlMsg, List.append_assoc]
      · simp [preTunnel, startupTrace, List.filterMap_append, pullStage_filterMap,
          Event.pulledModel]
      · simp [preTunnel, startupTrace, List.countP_append, List.countP_cons,
          Event.isConnect,
          pullStage_countP_zero Event.isConnect _ o _ (fun _ => rfl)
            (fun _ _ => rfl) (fun _ => rfl)]
      · simp [List.countP_append, List.countP_cons, Event.isPull,
          countP_replicate_zero Event.isPull (Event.sleep 1) k rfl]
      · simp [List.countP_append, List.countP_cons, Event.isConnect,
          countP_replicate_zero Event.isConnect (Event.sleep 1) k rfl]
    | err msg =>
      refine ⟨preTunnel cfg o,
        [Event.print ("Hata: " ++ msg)] ++
          (List.replicate k (Event.sleep 1) ++ [Event.ngrokKill]),
        ?_, ?_, ?_, ?_, ?_⟩
      · simp [runScript, tunnelStage, List.append_assoc]
      · simp [preTunnel, startupTrace, List.filterMap_append, pullStage_filterMap,
          Event.pulledModel]
      · simp [preTunnel, startupTrace, List.countP_append, List.countP_cons,
          Event.isConnect,
          pullStage_countP_zero Event.isConnect _ o _ (fun _ => rfl)
            (fun _ _ => rfl) (fun _ => rfl)]
      · simp [List.countP_append, List.countP_cons, Event.isPull,
          countP_replicate_zero Event.isPull (Event.sleep 1) k rfl]
      · simp [List.countP_append, List.countP_cons, Event.isConnect,
          countP_replicate_zero Event.isConnect (Event.sleep 1) k rfl]
  · simp [runScript, preTunnel, startupTrace, tunnelStage, List.countP_append,
      List.countP_cons,
      isPrintOf_print_self (urlMsg url),
      isPrintOf_print_ne (urlMsg url) _ (serverStart_ne_urlMsg url),
      isPrintOf_print_ne (urlMsg url) _ (headerMsg_ne_urlMsg cfg.models.length url),
      isPrintOf_print_ne (urlMsg url) _ (banner_ne_urlMsg url),
      isPrintOf_print_ne (urlMsg url) _ (fire_ne_urlMsg url),
      isPrintOf_print_ne (urlMsg url) _ (kullan_ne_urlMsg cfg.models url),
      isPrintOf_print_ne (urlMsg url) _ (eqLine_ne_urlMsg url),
      pullStage_countP_zero (Event.isPrintOf (urlMsg url)) _ o _
        (fun m => isPrintOf_print_ne _ _ (dlMsg_ne_urlMsg m url))
        (fun _ _ => rfl)
        (fun m => isPrintOf_print_ne _ _ (readyMsg_ne_urlMsg m url)),
      countP_replicate_zero (Event.isPrintOf (urlMsg url)) (Event.sleep 1) k rfl,
      isPrintOf_setAuthToken, isPrintOf_popenServe, isPrintOf_sleep,
      isPrintOf_connect, isPrintOf_kill]

end Claims

end ColabOllama
